import Mathlib

/-!
Verification of the `SkyLightBridge.h` header of the Wallpaper-Manager
repository.  The header is a pure interface fragment: a `#pragma once`
guard, one type alias (`typedef int CGError`) and three forward
declarations of private window-server functions, with no bodies.  We
embed the header as data: a small model of C declaration forms rich
enough to distinguish type aliases, function declarations with or
without bodies, variable declarations, struct and enum definitions and
preprocessor object definitions, together with the integer value ranges
of the C integer types involved, and a one-step model of header
inclusion with a once-guard.  The theorems then settle the interface
claims by computation over this embedding.
-/

namespace SkyLightBridge

/-- C types appearing in the header: the builtin `int`, the fixed-width
`uint32_t` and `int64_t` from `<stdint.h>`, the opaque CoreFoundation
reference types, and a reference to a named type introduced by a
`typedef`. -/
inductive CType where
  | int
  | uint32_t
  | int64_t
  | CFArrayRef
  | CFURLRef
  | CFDictionaryRef
  | named (n : String)
deriving DecidableEq, Repr

/-- A C function signature: the list of parameter types in order, and
the result type. -/
structure FunSig where
  params : List CType
  ret : CType
deriving DecidableEq, Repr

/-- C expressions, for function bodies (the header has none). -/
inductive CExpr where
  | lit (v : Int)
  | varRef (n : String)
  | call (f : String) (args : List CExpr)

/-- C statements, for function bodies (the header has none). -/
inductive Stmt where
  | skip
  | assign (n : String) (e : CExpr)
  | seq (a b : Stmt)
  | ifElse (c : CExpr) (t e : Stmt)
  | loop (c : CExpr) (b : Stmt)
  | ret (e : Option CExpr)

/-- A top-level C declaration form: a `typedef`, a function declaration
(whose body is `none` for a pure forward declaration and `some s` for a
definition), a variable declaration, a `struct` definition, an `enum`
definition, or a preprocessor object definition (`#define NAME ...`). -/
inductive Decl where
  | typeAlias (name : String) (ty : CType)
  | funDecl (name : String) (sig : FunSig) (body : Option Stmt)
  | varDecl (name : String) (ty : CType)
  | structDef (name : String) (fields : List (String × CType))
  | enumDef (name : String) (cases : List (String × Int))
  | defineDirective (name : String)

/-- The declaration list of `SkyLightBridge.h`, transcribed from the
source: `typedef int CGError;` followed by the three forward
declarations
`CFArrayRef CGSCopyManagedDisplaySpaces(uint32_t connection);`,
`CGError CGSSetDesktopImageURL(uint32_t connection, int64_t spaceID,
CFURLRef url, CFDictionaryRef options);` and
`uint32_t CGSMainConnectionID(void);`, all without bodies. -/
def skyLightBridgeDecls : List Decl :=
  [ .typeAlias "CGError" .int,
    .funDecl "CGSCopyManagedDisplaySpaces" ⟨[.uint32_t], .CFArrayRef⟩ none,
    .funDecl "CGSSetDesktopImageURL"
      ⟨[.uint32_t, .int64_t, .CFURLRef, .CFDictionaryRef], .named "CGError"⟩ none,
    .funDecl "CGSMainConnectionID" ⟨[], .uint32_t⟩ none ]

/-- The name of a function declaration, if the declaration is one. -/
def Decl.funName? : Decl → Option String
  | .funDecl n _ _ => some n
  | _ => none

/-- The name of a typedef, if the declaration is one. -/
def Decl.typeAliasName? : Decl → Option String
  | .typeAlias n _ => some n
  | _ => none

/-- The name of a variable declaration, if the declaration is one. -/
def Decl.varName? : Decl → Option String
  | .varDecl n _ => some n
  | _ => none

/-- The name of a struct definition, if the declaration is one. -/
def Decl.structName? : Decl → Option String
  | .structDef n _ => some n
  | _ => none

/-- The name of an enum definition, if the declaration is one. -/
def Decl.enumName? : Decl → Option String
  | .enumDef n _ => some n
  | _ => none

/-- The name of a preprocessor object definition, if the declaration is
one. -/
def Decl.directiveName? : Decl → Option String
  | .defineDirective n => some n
  | _ => none

/-- The names of all functions a declaration list declares. -/
def declaredFunNames (ds : List Decl) : List String :=
  ds.filterMap Decl.funName?

/-- The names of all typedefs a declaration list declares. -/
def declaredTypeAliasNames (ds : List Decl) : List String :=
  ds.filterMap Decl.typeAliasName?

/-- The names of all variables a declaration list declares. -/
def declaredVarNames (ds : List Decl) : List String :=
  ds.filterMap Decl.varName?

/-- The names of all struct definitions in a declaration list. -/
def declaredStructNames (ds : List Decl) : List String :=
  ds.filterMap Decl.structName?

/-- The names of all enum definitions in a declaration list. -/
def declaredEnumNames (ds : List Decl) : List String :=
  ds.filterMap Decl.enumName?

/-- The names of all preprocessor object definitions in a declaration
list. -/
def declaredDirectiveNames (ds : List Decl) : List String :=
  ds.filterMap Decl.directiveName?

/-- Look up the signature of a declared function by name. -/
def findFun (ds : List Decl) (n : String) : Option FunSig :=
  ds.findSome? fun d => match d with
    | .funDecl m s _ => if m = n then some s else none
    | _ => none

/-- Resolve a typedef name to the type it abbreviates. -/
def resolveTypeAlias (ds : List Decl) (n : String) : Option CType :=
  ds.findSome? fun d => match d with
    | .typeAlias m t => if m = n then some t else none
    | _ => none

/-- The parameter type list of a declared function (empty if the name is
not declared). -/
def paramTypes (ds : List Decl) (n : String) : List CType :=
  match findFun ds n with
  | some s => s.params
  | none => []

/-- The result type of a declared function. -/
def retType (ds : List Decl) (n : String) : Option CType :=
  (findFun ds n).map FunSig.ret

/-- The value range of a C integer type as a half-open interval
`[lo, hi)`, with `int` 32-bit signed as on the target platform;
`none` for non-integer types and unresolved named types. -/
def CType.intRange : CType → Option (Int × Int)
  | .int => some (-(2 ^ 31), 2 ^ 31)
  | .uint32_t => some (0, 2 ^ 32)
  | .int64_t => some (-(2 ^ 63), 2 ^ 63)
  | _ => none

/-- Whether an integer value is representable in a C integer type. -/
def representable (t : CType) (v : Int) : Bool :=
  match t.intRange with
  | some (lo, hi) => decide (lo ≤ v) && decide (v < hi)
  | none => false

/-- Representability after resolving a named type through the
declaration list's typedefs (one step, which the header needs). -/
def representableIn (ds : List Decl) (t : CType) (v : Int) : Bool :=
  match t with
  | .named n =>
      match resolveTypeAlias ds n with
      | some u => representable u v
      | none => false
  | _ => representable t v

/-- Spec-side reading of the data-model sentence: `CGError` is a bare
integer alias, so a value is a valid `CGError` exactly when it is a
representable `int` value. -/
def specCGErrorRepresentable (v : Int) : Bool :=
  representable CType.int v

/-- Modelled from the spec: the platform error-code convention for the
`CGError` result of `CGSSetDesktopImageURL` — a result of zero denotes
success, any non-zero result denotes a failure code.  The header itself
attaches no semantics to `CGError`; this convention is the spec's, and
the absence of any finer mapping in the source is checked separately
over the declaration list. -/
def cgErrorDenotesSuccess (e : Int) : Bool :=
  e == 0

/-- Whether a declaration is a function definition with a body. -/
def Decl.isImplementedFun : Decl → Bool
  | .funDecl _ _ (some _) => true
  | _ => false

/-- Whether a declaration is a pure forward function declaration,
without a body. -/
def Decl.isForwardFunDecl : Decl → Bool
  | .funDecl _ _ none => true
  | _ => false

/-- Whether a declaration introduces mutable or global state or a data
structure: a variable declaration or a struct definition. -/
def Decl.definesStateOrData : Decl → Bool
  | .varDecl _ _ => true
  | .structDef _ _ => true
  | _ => false

/-- Whether a declaration could assign meanings to specific error
codes: an enum definition or a preprocessor object definition. -/
def Decl.isCodeMapping : Decl → Bool
  | .enumDef _ _ => true
  | .defineDirective _ => true
  | _ => false

/-- A header file: its name, whether it carries a `#pragma once` guard,
and its declarations. -/
structure Header where
  name : String
  pragmaOnce : Bool
  decls : List Decl

/-- `SkyLightBridge.h` as a header: guarded by `#pragma once`. -/
def skyLightBridgeHeader : Header :=
  ⟨"SkyLightBridge.h", true, skyLightBridgeDecls⟩

/-- The state of preprocessing one translation unit: the once-guarded
headers already included, and the declarations emitted so far. -/
structure TUState where
  includedOnce : List String
  emitted : List Decl

/-- Include a header into a translation unit: a once-guarded header
already recorded in the state contributes nothing; otherwise its
declarations are appended and, if once-guarded, its name recorded. -/
def includeHeader (h : Header) (st : TUState) : TUState :=
  if h.pragmaOnce && st.includedOnce.contains h.name then st
  else ⟨(if h.pragmaOnce then [h.name] else []) ++ st.includedOnce,
        st.emitted ++ h.decls⟩

/-- Claim C1: the externally visible surface of the fragment consists of
exactly the three declared function symbols `CGSCopyManagedDisplaySpaces`,
`CGSSetDesktopImageURL` and `CGSMainConnectionID` and exactly the one
type alias `CGError`; no other function, type, variable, or
preprocessor-defined operation is declared for a linking unit to use. -/
theorem surface_is_three_functions_and_one_typedef :
    declaredFunNames skyLightBridgeDecls =
      ["CGSCopyManagedDisplaySpaces", "CGSSetDesktopImageURL",
       "CGSMainConnectionID"] ∧
    declaredTypeAliasNames skyLightBridgeDecls = ["CGError"] ∧
    declaredVarNames skyLightBridgeDecls = [] ∧
    declaredStructNames skyLightBridgeDecls = [] ∧
    declaredEnumNames skyLightBridgeDecls = [] ∧
    declaredDirectiveNames skyLightBridgeDecls = [] := by
  refine ⟨rfl, rfl, rfl, rfl, rfl, rfl⟩

/-- Claim C2: `CGSSetDesktopImageURL` takes exactly four parameters — a
`uint32_t` connection, an `int64_t` space identifier, a `CFURLRef`
image URL and a `CFDictionaryRef` options dictionary — and its result
type is the error code type `CGError`. -/
theorem setDesktopImageURL_signature :
    findFun skyLightBridgeDecls "CGSSetDesktopImageURL" =
      some ⟨[.uint32_t, .int64_t, .CFURLRef, .CFDictionaryRef],
            .named "CGError"⟩ ∧
    (paramTypes skyLightBridgeDecls "CGSSetDesktopImageURL").length = 4 := by
  refine ⟨rfl, rfl⟩

/-- Claim C3: `CGSCopyManagedDisplaySpaces` takes exactly one parameter,
a connection identifier of type `uint32_t`, and its result type is the
opaque array type `CFArrayRef`, irrespective of the connection value. -/
theorem copyManagedDisplaySpaces_signature :
    findFun skyLightBridgeDecls "CGSCopyManagedDisplaySpaces" =
      some ⟨[.uint32_t], .CFArrayRef⟩ ∧
    (paramTypes skyLightBridgeDecls "CGSCopyManagedDisplaySpaces").length
      = 1 ∧
    retType skyLightBridgeDecls "CGSCopyManagedDisplaySpaces" =
      some CType.CFArrayRef := by
  refine ⟨rfl, rfl, rfl⟩

/-- Claim C4: `CGSMainConnectionID` takes no arguments and its result
type is the unsigned 32-bit integer type `uint32_t`. -/
theorem mainConnectionID_signature :
    findFun skyLightBridgeDecls "CGSMainConnectionID" =
      some ⟨[], .uint32_t⟩ ∧
    paramTypes skyLightBridgeDecls "CGSMainConnectionID" = [] ∧
    retType skyLightBridgeDecls "CGSMainConnectionID" =
      some CType.uint32_t := by
  refine ⟨rfl, rfl, rfl⟩

/-- Claim C5: `CGError` is a bare alias of the plain integer type `int`:
the typedef resolves to `int`, and a value is representable as a
`CGError` exactly when it is representable as an `int` — the alias adds
no range restriction or distinct identity, matching the spec-side
reading `specCGErrorRepresentable`. -/
theorem cgError_bare_int_alias :
    resolveTypeAlias skyLightBridgeDecls "CGError" = some CType.int ∧
    ∀ v : Int,
      representableIn skyLightBridgeDecls (CType.named "CGError") v =
        specCGErrorRepresentable v := by
  exact ⟨rfl, fun v => rfl⟩

/-- Claim C6: under the spec-modelled convention for the `CGError`
result of `CGSSetDesktopImageURL`, zero denotes success and exactly the
non-zero values denote failure; and the fragment defines no finer
mapping of codes to meanings (no enum or preprocessor definition) and
no propagation or recovery logic (no function bodies at all). -/
theorem cgError_zero_success_nonzero_failure_no_mapping :
    (∀ e : Int, cgErrorDenotesSuccess e = true ↔ e = 0) ∧
    (∀ e : Int, cgErrorDenotesSuccess e = false ↔ e ≠ 0) ∧
    skyLightBridgeDecls.filter Decl.isCodeMapping = [] ∧
    skyLightBridgeDecls.all (fun d => !d.isImplementedFun) = true := by
  refine ⟨fun e => ?_, fun e => ?_, rfl, rfl⟩
  · simp [cgErrorDenotesSuccess]
  · simp [cgErrorDenotesSuccess]

/-- Claim C7: none of the declared functions has a body: every
declaration of the fragment is free of implementation, the fragment
declares no variable (mutable or global state) and no struct (data
structure), and the function declarations are exactly three pure
forward declarations. -/
theorem no_bodies_no_state_no_data :
    skyLightBridgeDecls.all (fun d => !d.isImplementedFun) = true ∧
    skyLightBridgeDecls.all (fun d => !d.definesStateOrData) = true ∧
    (skyLightBridgeDecls.filter Decl.isForwardFunDecl).length = 3 ∧
    (declaredFunNames skyLightBridgeDecls).length = 3 := by
  refine ⟨rfl, rfl, rfl, rfl⟩

/-- Claim C8: including `SkyLightBridge.h` is idempotent on any
translation-unit state: because of its `#pragma once` guard, a second
inclusion changes nothing, so the declarations are introduced at most
once. -/
theorem include_idempotent (st : TUState) :
    includeHeader skyLightBridgeHeader
        (includeHeader skyLightBridgeHeader st) =
      includeHeader skyLightBridgeHeader st := by
  unfold includeHeader skyLightBridgeHeader
  by_cases h : "SkyLightBridge.h" ∈ st.includedOnce
  · simp [h]
  · simp [h]

/-- Witness for claim C8: idempotence of inclusion at the empty
translation-unit state. -/
theorem include_idempotent_witness :
    includeHeader skyLightBridgeHeader
        (includeHeader skyLightBridgeHeader ⟨[], []⟩) =
      includeHeader skyLightBridgeHeader ⟨[], []⟩ :=
  include_idempotent ⟨[], []⟩

/-- Claim C9: at the declared interface, the `spaceID` parameter of
`CGSSetDesktopImageURL` (position 1) has the signed 64-bit type
`int64_t`, in which negative identifiers such as `-1` are representable,
while every connection parameter and the connection result have the
unsigned 32-bit type `uint32_t`, whose representable values are exactly
the non-negative integers below `2 ^ 32`. -/
theorem spaceID_signed_connection_unsigned (v : Int) :
    (paramTypes skyLightBridgeDecls "CGSSetDesktopImageURL")[1]? =
      some CType.int64_t ∧
    representable CType.int64_t (-1) = true ∧
    (paramTypes skyLightBridgeDecls "CGSSetDesktopImageURL")[0]? =
      some CType.uint32_t ∧
    (paramTypes skyLightBridgeDecls "CGSCopyManagedDisplaySpaces")[0]? =
      some CType.uint32_t ∧
    retType skyLightBridgeDecls "CGSMainConnectionID" =
      some CType.uint32_t ∧
    (representable CType.uint32_t v = true ↔ 0 ≤ v ∧ v < 2 ^ 32) ∧
    (representable CType.int64_t v = true ↔
      -(2 ^ 63) ≤ v ∧ v < 2 ^ 63) := by
  refine ⟨rfl, rfl, rfl, rfl, rfl, ?_, ?_⟩
  · simp [representable, CType.intRange]
  · simp [representable, CType.intRange]

/-- Witness for claim C9: the conjunction instantiated at the concrete
value `5`. -/
theorem spaceID_signed_connection_unsigned_witness :
    (paramTypes skyLightBridgeDecls "CGSSetDesktopImageURL")[1]? =
      some CType.int64_t ∧
    representable CType.int64_t (-1) = true ∧
    (paramTypes skyLightBridgeDecls "CGSSetDesktopImageURL")[0]? =
      some CType.uint32_t ∧
    (paramTypes skyLightBridgeDecls "CGSCopyManagedDisplaySpaces")[0]? =
      some CType.uint32_t ∧
    retType skyLightBridgeDecls "CGSMainConnectionID" =
      some CType.uint32_t ∧
    (representable CType.uint32_t 5 = true ↔
      0 ≤ (5 : Int) ∧ (5 : Int) < 2 ^ 32) ∧
    (representable CType.int64_t 5 = true ↔
      -(2 ^ 63) ≤ (5 : Int) ∧ (5 : Int) < 2 ^ 63) :=
  spaceID_signed_connection_unsigned 5

end SkyLightBridge
